import Mathlib

/-
Verification of the terraform-provider-cloudportalapi repository.

Shallow embedding of the Go source:
  * the nested Ticket data model (part_001) becomes Lean structures;
  * Go slices become Lean lists; Go maps become association lists
    (entry order stands for the unspecified Go iteration order);
  * `[]interface{}` / `map[string]interface{}` values produced by the
    flatten helpers become the inductive `Value` type, with dedicated
    constructors for the raw Go structs that the code stores in an
    `interface{}` without flattening (e.g. `comment.Author`);
  * each `var result []T; for ... { result = append(result, x) }` loop
    becomes a `List.foldl` with an append, mirroring the loop shape;
  * `dataSourceTicketRead` becomes a function from an environment that
    records the outcome of every external step (request construction,
    token acquisition, transport, status, gzip, body read, JSON decode)
    to an outcome recording the `d.Set` calls performed, the `SetId`
    call, and how the function terminated (`log.Fatalf` is a distinct
    terminal outcome, as is the nil-pointer panic on the failed-gzip
    path);
  * the singleton logger (part_000) becomes explicit state passing over
    `Option Logger`;
  * `providerConfigure` (part_002) becomes a function from its
    configuration values plus the outcomes of logger initialisation and
    Azure credential construction.
-/

namespace Cloudportal

/-! ## Data model (Go structs of part_001) -/

structure User where
  id : String
  email : String
  userprincipalname : String
  displayname : String
  roles : List String
deriving Repr, DecidableEq

structure Participant where
  userinfo : User
  role : String
deriving Repr, DecidableEq

structure Comment where
  id : String
  createdat : String
  modifiedat : String
  author : User
  content : String
  loginuser : User
  iseditable : Bool
  iseditmode : Bool
  contentcopy : String
deriving Repr, DecidableEq

structure Action where
  actionname : String
  requiredproperties : List String
  type : String
  minnumofcatalogitems : Int
deriving Repr, DecidableEq

/-- InvoicePeriod: billing period details; `actualcost` is a JSON number
(Go float64), modelled as a rational since the flattener only passes it
through without arithmetic. -/
structure InvoicePeriod where
  invoiceperiod : String
  actualcost : ℚ
  startdate : String
  enddate : String
deriving Repr, DecidableEq

/-- BillingItem; `invoiceperiods` is a Go `map[string]InvoicePeriod`,
modelled as an association list of entries. -/
structure BillingItem where
  id : String
  partitionkey : String
  subscriptionname : String
  invoiceperiods : List (String × InvoicePeriod)
deriving Repr, DecidableEq

/-- Change: old/new values are Go `map[string]string`, modelled as
association lists. -/
structure Change where
  propertyname : String
  oldvalue : List (String × String)
  newvalue : List (String × String)
deriving Repr, DecidableEq

structure HistoryItem where
  date : String
  author : List User
  changes : List Change
deriving Repr, DecidableEq

structure CatalogField where
  key : String
  label : String
  value : String
  ismandatory : Bool
  lookupfunction : Option String
  lookupvalues : List String
  hintvalue : Option String
  inputType : Option String
  inputformat : Option String
  enabletoggleby : Option String
  disabled : Option String
deriving Repr, DecidableEq

structure CatalogItem where
  name : String
  resourcename : String
  label : String
  catalogitemdisclaimer : Option String
  catalogitemcloudplatform : String
  tickettypes : List String
  active : Bool
  catalogitemversion : Int
  catalogitemcreated : String
  catalogitemapproved : String
  catalogitemapprovedby : String
  catalogitemicon : Option String
  catalogfields : List CatalogField
  variablesMap : List (String × String)
  resourcecontractname : Option String
  resourcecontainername : Option String
deriving Repr, DecidableEq

structure Attachment where
  url : String
  uploaddatetime : String
  uploadedby : List User
  filename : String
deriving Repr, DecidableEq

structure ClarityCode where
  code : String
  description : String
  costcenter : String
  emails : List String
  tower : String
deriving Repr, DecidableEq

structure Ticket where
  id : String
  ticketno : Int
  title : String
  description : String
  status : String
  substatus : String
  statuschangedat : String
  createdat : String
  createdby : User
  changedby : User
  claritycode : ClarityCode
  participants : List Participant
  comments : List Comment
  attachments : List Attachment
  billingitems : List BillingItem
  historyitems : List HistoryItem
  validactions : List Action
  editableproperties : List String
  mandatoryproperties : List String
  etag : String
  type : String
  serviceprovider : String
  cloudplatform : String
  catalogitems : List CatalogItem
deriving Repr

/-! ## Dynamic values (`interface{}` contents handed to `d.Set`) -/

/-- A Go `interface{}` value as produced by the flatten helpers and the
`d.Set` calls: strings, ints, bools, JSON numbers, `[]interface{}`,
`map[string]interface{}` (association list in insertion order), plus the
raw Go values stored without flattening (`User`, `[]Participant`,
`[]string`). -/
inductive Value where
  | str : String → Value
  | int : Int → Value
  | bool : Bool → Value
  | num : ℚ → Value
  | list : List Value → Value
  | map : List (String × Value) → Value
  | goUser : User → Value
  | goParticipants : List Participant → Value
  | strList : List String → Value

/-- The `map[string]interface{}` literal built for one `User` inside
`flattenUsers` (key order as written in the Go literal). -/
def userFlat (user : User) : Value :=
  .map [("email", .str user.email),
        ("userprincipalname", .str user.userprincipalname),
        ("id", .str user.id),
        ("displayname", .str user.displayname),
        ("roles", .strList user.roles)]

/-- Helper function to flatten a list of user objects
(`var result []interface{}; for ... append`). -/
def flattenUsers (users : List User) : List Value :=
  users.foldl (fun result user => result ++ [userFlat user]) []

/-- The map literal built for one `Comment` inside `flattenComments`;
`author` and `loginuser` are stored as the raw `User` structs. -/
def commentFlat (comment : Comment) : Value :=
  .map [("id", .str comment.id),
        ("createdat", .str comment.createdat),
        ("modifiedat", .str comment.modifiedat),
        ("author", .goUser comment.author),
        ("content", .str comment.content),
        ("loginuser", .goUser comment.loginuser),
        ("iseditable", .bool comment.iseditable),
        ("iseditmode", .bool comment.iseditmode),
        ("contentcopy", .str comment.contentcopy)]

/-- Helper function to flatten comments. -/
def flattenComments (comments : List Comment) : List Value :=
  comments.foldl (fun result comment => result ++ [commentFlat comment]) []

/-- The map literal built for one `Attachment`; `uploadedby` recurses
through `flattenUsers`. -/
def attachmentFlat (attachment : Attachment) : Value :=
  .map [("url", .str attachment.url),
        ("uploaddatetime", .str attachment.uploaddatetime),
        ("uploadedby", .list (flattenUsers attachment.uploadedby)),
        ("filename", .str attachment.filename)]

/-- Helper function to flatten attachments. -/
def flattenAttachments (attachments : List Attachment) : List Value :=
  attachments.foldl (fun result attachment => result ++ [attachmentFlat attachment]) []

/-- The map literal built for one invoice-period map entry inside
`flattenInvoicePeriods`: the map key is re-included as the explicit
`invoiceperiod` field. -/
def invoicePeriodEntryFlat (kv : String × InvoicePeriod) : Value :=
  .map [("invoiceperiod", .str kv.1),
        ("actualcost", .num kv.2.actualcost),
        ("startdate", .str kv.2.startdate),
        ("enddate", .str kv.2.enddate)]

/-- Helper function to flatten invoice periods
(`for key, period := range invoicePeriods`). -/
def flattenInvoicePeriods (invoicePeriods : List (String × InvoicePeriod)) : List Value :=
  invoicePeriods.foldl (fun result kv => result ++ [invoicePeriodEntryFlat kv]) []

/-- The map literal built for one `BillingItem`; `invoiceperiods`
recurses through `flattenInvoicePeriods`. -/
def billingItemFlat (item : BillingItem) : Value :=
  .map [("id", .str item.id),
        ("partitionkey", .str item.partitionkey),
        ("subscriptionname", .str item.subscriptionname),
        ("invoiceperiods", .list (flattenInvoicePeriods item.invoiceperiods))]

/-- Helper function to flatten billing items. -/
def flattenBillingItems (billingItems : List BillingItem) : List Value :=
  billingItems.foldl (fun result item => result ++ [billingItemFlat item]) []

/-- Helper function to flatten string maps: builds a fresh
`map[string]interface{}` holding the same entries
(association list in iteration order). -/
def flattenStringMap (m : List (String × String)) : List (String × Value) :=
  m.foldl (fun flattened kv => flattened ++ [(kv.1, Value.str kv.2)]) []

/-- The map literal built for one `Change`; old/new values go through
`flattenStringMap`. -/
def changeFlat (change : Change) : Value :=
  .map [("propertyname", .str change.propertyname),
        ("oldvalue", .map (flattenStringMap change.oldvalue)),
        ("newvalue", .map (flattenStringMap change.newvalue))]

/-- Helper function to flatten changes. -/
def flattenChanges (changes : List Change) : List Value :=
  changes.foldl (fun result change => result ++ [changeFlat change]) []

/-- The map literal built for one `HistoryItem`; `author` recurses
through `flattenUsers` and `changes` through `flattenChanges`. -/
def historyItemFlat (historyItem : HistoryItem) : Value :=
  .map [("date", .str historyItem.date),
        ("author", .list (flattenUsers historyItem.author)),
        ("changes", .list (flattenChanges historyItem.changes))]

/-- Helper function to flatten history items. -/
def flattenHistoryItems (historyItems : List HistoryItem) : List Value :=
  historyItems.foldl (fun result historyItem => result ++ [historyItemFlat historyItem]) []

/-- Helper function to flatten string lists (for requiredproperties). -/
def flattenStringList (list : List String) : List Value :=
  list.foldl (fun result item => result ++ [Value.str item]) []

/-- The map literal built for one `Action`; `requiredproperties`
recurses through `flattenStringList`. -/
def actionFlat (action : Action) : Value :=
  .map [("actionname", .str action.actionname),
        ("requiredproperties", .list (flattenStringList action.requiredproperties)),
        ("type", .str action.type),
        ("minnumofcatalogitems", .int action.minnumofcatalogitems)]

/-- Helper function to flatten actions. -/
def flattenActions (actions : List Action) : List Value :=
  actions.foldl (fun result action => result ++ [actionFlat action]) []

/-! ## The append-loop shape is `List.map` -/

theorem foldl_append_eq_map {α β : Type} (f : α → β) :
    ∀ (xs : List α) (acc : List β),
      xs.foldl (fun r x => r ++ [f x]) acc = acc ++ xs.map f := by
  intro xs
  induction xs with
  | nil => intro acc; simp
  | cons x xs ih =>
      intro acc
      simp only [List.foldl_cons, List.map_cons]
      rw [ih (acc ++ [f x])]
      simp

theorem flattenUsers_eq (users : List User) :
    flattenUsers users = users.map userFlat := by
  simpa [flattenUsers] using foldl_append_eq_map userFlat users []

theorem flattenComments_eq (comments : List Comment) :
    flattenComments comments = comments.map commentFlat := by
  simpa [flattenComments] using foldl_append_eq_map commentFlat comments []

theorem flattenAttachments_eq (attachments : List Attachment) :
    flattenAttachments attachments = attachments.map attachmentFlat := by
  simpa [flattenAttachments] using foldl_append_eq_map attachmentFlat attachments []

theorem flattenInvoicePeriods_eq (invoicePeriods : List (String × InvoicePeriod)) :
    flattenInvoicePeriods invoicePeriods = invoicePeriods.map invoicePeriodEntryFlat := by
  simpa [flattenInvoicePeriods] using foldl_append_eq_map invoicePeriodEntryFlat invoicePeriods []

theorem flattenBillingItems_eq (billingItems : List BillingItem) :
    flattenBillingItems billingItems = billingItems.map billingItemFlat := by
  simpa [flattenBillingItems] using foldl_append_eq_map billingItemFlat billingItems []

theorem flattenStringMap_eq (m : List (String × String)) :
    flattenStringMap m = m.map (fun kv => (kv.1, Value.str kv.2)) := by
  simpa [flattenStringMap] using
    foldl_append_eq_map (fun kv : String × String => (kv.1, Value.str kv.2)) m []

theorem flattenChanges_eq (changes : List Change) :
    flattenChanges changes = changes.map changeFlat := by
  simpa [flattenChanges] using foldl_append_eq_map changeFlat changes []

theorem flattenHistoryItems_eq (historyItems : List HistoryItem) :
    flattenHistoryItems historyItems = historyItems.map historyItemFlat := by
  simpa [flattenHistoryItems] using foldl_append_eq_map historyItemFlat historyItems []

theorem flattenStringList_eq (list : List String) :
    flattenStringList list = list.map Value.str := by
  simpa [flattenStringList] using foldl_append_eq_map Value.str list []

theorem flattenActions_eq (actions : List Action) :
    flattenActions actions = actions.map actionFlat := by
  simpa [flattenActions] using foldl_append_eq_map actionFlat actions []

/-! ## Ticket schema (schema.go) -/

/-- The attribute names declared by `TicketSchema()` in
`internal/provider/schema.go`, in declaration order. -/
def TicketSchemaKeys : List String :=
  ["id", "ticketno", "title", "description", "status", "substatus",
   "statuschangedat", "createdat", "createdby", "changedby", "claritycode",
   "participants", "comments", "attachments", "billingitems", "historyitems",
   "validactions", "editableproperties", "mandatoryproperties", "etag",
   "type", "serviceprovider", "cloudplatform", "catalogitems"]

/-! ## dataSourceTicketRead (part_001) -/

/-- The `d.Set` calls performed on the success path of
`dataSourceTicketRead`, as (attribute name, value) pairs in program
order.  `createdby`, `changedby` and `participants` are passed as the
raw Go values; the five nested collections go through their flatten
helpers. -/
def ticketAttrs (ticket : Ticket) : List (String × Value) :=
  [("id", .str ticket.id),
   ("ticketno", .int ticket.ticketno),
   ("title", .str ticket.title),
   ("description", .str ticket.description),
   ("status", .str ticket.status),
   ("substatus", .str ticket.substatus),
   ("statuschangedat", .str ticket.statuschangedat),
   ("createdat", .str ticket.createdat),
   ("createdby", .goUser ticket.createdby),
   ("changedby", .goUser ticket.changedby),
   ("participants", .goParticipants ticket.participants),
   ("comments", .list (flattenComments ticket.comments)),
   ("attachments", .list (flattenAttachments ticket.attachments)),
   ("billingitems", .list (flattenBillingItems ticket.billingitems)),
   ("historyitems", .list (flattenHistoryItems ticket.historyitems)),
   ("validactions", .list (flattenActions ticket.validactions))]

/-- Environment of one `dataSourceTicketRead` call: the outcome of each
external step, in the order the code consults them.  `readAllErr` and
`decodeErr` are recorded because the code computes them (and logs them),
even though it then ignores them; `ticket` is the value the `Ticket`
variable holds after `json.Unmarshal` returns (the zero value when
decoding fails at the top level). -/
structure ReadEnv where
  isdebug : Bool
  loggerInitOk : Bool
  reqErr : Option String
  tokenErr : Option String
  transportErr : Option String
  statusCode : Nat
  status : String
  gzipEncoded : Bool
  gzipErr : Option String
  readAllErr : Option String
  decodeErr : Option String
  ticket : Ticket

/-- How `dataSourceTicketRead` terminates: `fatal` is `log.Fatal` /
`log.Fatalf` (process exit, nothing returned), `crash` is the
nil-pointer panic reached when `gzip.NewReader` fails (the error is only
logged, `reader` is set to the nil gzip reader, and the subsequent read
dereferences it), `errMsg` is a returned non-nil error, `okNil` is a
`nil` return. -/
inductive ReadTermination where
  | fatal : String → ReadTermination
  | crash : ReadTermination
  | errMsg : String → ReadTermination
  | okNil : ReadTermination
deriving Repr, DecidableEq

/-- Observable outcome of one `dataSourceTicketRead` call: the `d.Set`
calls performed (in order), the `d.SetId` argument if reached, and the
termination. -/
structure ReadOutcome where
  setAttrs : List (String × Value)
  setIdVal : Option String
  result : ReadTermination

/-- Shallow embedding of `dataSourceTicketRead` (part_001).  Faithful to
the source: request-construction, transport and non-200 failures return
errors before any `d.Set`; token failure hits `log.Fatalf`; a gzip
failure is only logged and then the nil reader is dereferenced; read and
decode failures are only logged and the function falls through to the
`d.Set` block and returns `nil`. -/
def dataSourceTicketRead (env : ReadEnv) : ReadOutcome :=
  if env.isdebug && !env.loggerInitOk then
    ⟨[], none, .fatal "Error initializing logger:"⟩
  else
    match env.reqErr with
    | some e => ⟨[], none, .errMsg ("failed to create HTTP request: " ++ e)⟩
    | none =>
      match env.tokenErr with
      | some e => ⟨[], none, .fatal ("failed to obtain a token: " ++ e)⟩
      | none =>
        match env.transportErr with
        | some e => ⟨[], none, .errMsg e⟩
        | none =>
          if env.statusCode ≠ 200 then
            ⟨[], none,
             .errMsg ("API call failed with status " ++ toString env.statusCode ++
                      ": " ++ env.status)⟩
          else if env.gzipEncoded && env.gzipErr.isSome then
            ⟨[], none, .crash⟩
          else
            ⟨ticketAttrs env.ticket, some env.ticket.id, .okNil⟩

/-! ## Logger (part_000) -/

/-- The log file behind the logger: accumulated lines and an open flag. -/
structure LogFile where
  lines : List String
  isOpen : Bool
deriving Repr, DecidableEq

/-- The `Logger` struct: the embedded `*log.Logger` writes to `file`. -/
structure Logger where
  file : Option LogFile
deriving Repr, DecidableEq

namespace logger

/-- Function `logger.Debug`: writes only when the global `logInstance` is
non-nil. -/
def Debug (message : String) (logInstance : Option Logger) : Option Logger :=
  match logInstance with
  | none => none
  | some lg => some ⟨lg.file.map (fun f => ⟨f.lines ++ ["DEBUG:  " ++ message], f.isOpen⟩)⟩

/-- Function `logger.Info`: writes only when the global `logInstance` is
non-nil. -/
def Info (message : String) (logInstance : Option Logger) : Option Logger :=
  match logInstance with
  | none => none
  | some lg => some ⟨lg.file.map (fun f => ⟨f.lines ++ ["INFO:  " ++ message], f.isOpen⟩)⟩

/-- Function `logger.Error`: writes only when the global `logInstance` is
non-nil. -/
def Error (message : String) (logInstance : Option Logger) : Option Logger :=
  match logInstance with
  | none => none
  | some lg => some ⟨lg.file.map (fun f => ⟨f.lines ++ ["ERROR:  " ++ message], f.isOpen⟩)⟩

/-- Function `logger.Close`: closes the file only when both `logInstance` and its
file are non-nil. -/
def Close (logInstance : Option Logger) : Option Logger :=
  match logInstance with
  | none => none
  | some lg =>
    match lg.file with
    | none => some lg
    | some f => some ⟨some ⟨f.lines, false⟩⟩

end logger

/-! ## Provider configuration (part_002) -/

/-- An `azidentity.ClientSecretCredential` (the data it is built from;
its behaviour is external). -/
structure AzCred where
  tenantID : String
  clientID : String
  clientSecret : String
deriving Repr, DecidableEq

/-- Struct `CloudportalAPIClient`; `hasHTTPClient` records that `Client` is a
freshly allocated `&http.Client{}`, `aziclient` is `none` when
credential construction failed (nil pointer in the source). -/
structure CloudportalAPIClient where
  BaseURL : String
  APIKey : String
  hasHTTPClient : Bool
  aziclient : Option AzCred
  isdebug : Bool
  tenantID : String
deriving Repr, DecidableEq

/-- Constructor `NewCloudportalAPIClient` (part_002): always returns a non-nil
client with a fresh `http.Client`. -/
def NewCloudportalAPIClient (azidentity : Option AzCred) (apiKey baseURL tenID : String)
    (debuginfo : Bool) : CloudportalAPIClient :=
  ⟨baseURL, apiKey, true, azidentity, debuginfo, tenID⟩

/-- Environment of one `providerConfigure` call: the configuration
values read from the provider schema, plus the outcome of logger
initialisation (an environmental effect: opening the log file) and of
`azidentity.NewClientSecretCredential`. -/
structure ConfigEnv where
  api_key : String
  base_url : String
  debug_info : Bool
  clientID : String
  clientSecret : String
  tenantID : String
  loggerInitOk : Bool
  credErr : Option String

/-- How `providerConfigure` terminates: `fatal` is `log.Fatal` on logger
initialisation failure, `err` is a `(nil, error)` return, `ok` is a
`(client, nil)` return with a non-nil client. -/
inductive ConfigResult where
  | fatal : String → ConfigResult
  | err : String → ConfigResult
  | ok : CloudportalAPIClient → ConfigResult
deriving Repr, DecidableEq

/-- Shallow embedding of `providerConfigure` (part_002).  Faithful to
the source: logger initialisation failure under `debug_info` hits
`log.Fatal`; empty `api_key` or `base_url` returns the one error; a
credential-construction failure is only logged and the client is built
with a nil credential; otherwise a non-nil client and nil error are
returned. -/
def providerConfigure (env : ConfigEnv) : ConfigResult :=
  if env.debug_info && !env.loggerInitOk then
    .fatal "Error initializing logger:"
  else if env.api_key = "" ∨ env.base_url = "" then
    .err "API key and base URL must be provided"
  else
    .ok (NewCloudportalAPIClient
          (match env.credErr with
           | some _ => none
           | none => some ⟨env.tenantID, env.clientID, env.clientSecret⟩)
          env.api_key env.base_url env.tenantID env.debug_info)

/-! ## Concrete sample data -/

/-- The Go zero value of `User`. -/
def zeroUser : User := ⟨"", "", "", "", []⟩

/-- The Go zero value of `ClarityCode`. -/
def zeroClarityCode : ClarityCode := ⟨"", "", "", [], ""⟩

/-- The Go zero value of `Ticket` — what `var ticket Ticket` holds when
`json.Unmarshal` fails at the top level. -/
def zeroTicket : Ticket :=
  ⟨"", 0, "", "", "", "", "", "", zeroUser, zeroUser, zeroClarityCode,
   [], [], [], [], [], [], [], [], "", "", "", "", []⟩

/-- Environment of a read whose HTTP exchange succeeds with a 200
response but whose body fails JSON decoding: `json.Unmarshal` returns an
error and leaves the ticket at its zero value. -/
def envDecodeFail : ReadEnv :=
  ⟨false, true, none, none, none, 200, "200 OK", false, none, none,
   some "invalid JSON body", zeroTicket⟩

/-- Environment of a read whose transport step (`cred.Client.Do`)
fails. -/
def envTransportErr : ReadEnv :=
  ⟨false, true, none, none, some "connection refused", 0, "", false, none, none,
   none, zeroTicket⟩

/-- A decoded ticket whose schema-declared but never-assigned fields are
non-zero, so that dropping them loses information. -/
def sampleTicket : Ticket :=
  { zeroTicket with
      id := "TCK-1", etag := "W-123", type := "incident",
      serviceprovider := "henkel", cloudplatform := "azure",
      editableproperties := ["title"], mandatoryproperties := ["title"] }

/-- Environment of a fully successful read of `sampleTicket`. -/
def envSuccess : ReadEnv :=
  ⟨false, true, none, none, none, 200, "200 OK", false, none, none, none,
   sampleTicket⟩

/-- A provider configuration with non-empty `api_key` and `base_url`
whose Azure credential construction fails. -/
def envC10 : ConfigEnv :=
  ⟨"key", "https://example", false, "cid", "secret", "tid", true, some "bad secret"⟩

/-- A provider configuration with an empty `api_key` where `debug_info`
is enabled and opening the log file fails, so `logger.NewLogger` returns
an error. -/
def envLoggerFatal : ConfigEnv :=
  ⟨"", "https://example", true, "cid", "secret", "tid", false, none⟩

/-- Whether a `providerConfigure` outcome is a `(nil, error)` return. -/
def ConfigResult.isErrReturn : ConfigResult → Bool
  | .err _ => true
  | _ => false

/-- Whether a `providerConfigure` outcome is a `(client, nil)` return. -/
def ConfigResult.isOkReturn : ConfigResult → Bool
  | .ok _ => true
  | _ => false

/-- Environment of a read that receives a 404 response. -/
def env404 : ReadEnv :=
  ⟨false, true, none, none, none, 404, "404 Not Found", false, none, none, none,
   zeroTicket⟩

/-! ## Shared characterisation of `dataSourceTicketRead` -/

/-- Every run of the read either performs no `d.Set`/`SetId` call and
does not return `nil`, or performs exactly the success-path assignments
and returns `nil`. -/
theorem read_dichotomy (env : ReadEnv) :
    ((dataSourceTicketRead env).setAttrs = []
      ∧ (dataSourceTicketRead env).setIdVal = none
      ∧ (dataSourceTicketRead env).result ≠ ReadTermination.okNil)
  ∨ dataSourceTicketRead env =
      ⟨ticketAttrs env.ticket, some env.ticket.id, ReadTermination.okNil⟩ := by
  unfold dataSourceTicketRead
  repeat' split
  all_goals first
    | exact Or.inr rfl
    | exact Or.inl ⟨rfl, rfl, fun h => ReadTermination.noConfusion h⟩

/-- Whether a dynamic value is a flat `map[string]interface{}`. -/
def Value.isMapVal : Value → Bool
  | .map _ => true
  | _ => false

/-- Whether a dynamic value is a plain string. -/
def Value.isStrVal : Value → Bool
  | .str _ => true
  | _ => false

/-- The attribute names assigned by the success path, in program
order. -/
theorem ticketAttrs_keys (t : Ticket) :
    (ticketAttrs t).map Prod.fst =
      ["id", "ticketno", "title", "description", "status", "substatus",
       "statuschangedat", "createdat", "createdby", "changedby", "participants",
       "comments", "attachments", "billingitems", "historyitems", "validactions"] := rfl

/-- Pointwise truth of a predicate lifts to `List.all` over a map. -/
theorem all_map_of_pointwise {α β : Type} (f : α → β) (p : β → Bool)
    (h : ∀ a, p (f a) = true) (xs : List α) : (xs.map f).all p = true := by
  induction xs with
  | nil => rfl
  | cons x xs ih => simp [h, ih]

/-- Rebuilding a string map entry by entry preserves the key list. -/
theorem map_fst_pairFlat (m : List (String × String)) :
    (m.map (fun kv => (kv.1, Value.str kv.2))).map Prod.fst = m.map Prod.fst := by
  induction m with
  | nil => rfl
  | cons kv m ih => simp [ih]

/-! ## Claims -/

/-- C1: the claim says every upstream failure of `dataSourceTicketRead`
(request construction, token acquisition, transport, non-200 status,
gzip decompression, JSON decode) returns a distinct terminal error and
aborts before any flatten function runs.  The code violates this: a JSON
decode error is only logged, after which the read commits the
zero-valued ticket attribute set (invoking every flatten function) and
returns `nil`.  This theorem evaluates the embedded read on such an
environment: decoding failed, yet the result is `nil`, the full
attribute set of the zero ticket is committed, and the `comments`
attribute is the output of `flattenComments`. -/
theorem dataSourceTicketRead_decode_error_not_terminal :
    envDecodeFail.decodeErr = some "invalid JSON body"
  ∧ (dataSourceTicketRead envDecodeFail).result = ReadTermination.okNil
  ∧ (dataSourceTicketRead envDecodeFail).setAttrs = ticketAttrs zeroTicket
  ∧ (dataSourceTicketRead envDecodeFail).setAttrs.get? 11 =
      some ("comments", Value.list (flattenComments zeroTicket.comments)) :=
  ⟨rfl, rfl, rfl, rfl⟩

/-- C2: a run of `dataSourceTicketRead` that returns an error has
performed no `d.Set` and no `d.SetId`; a run that returns `nil` has
performed exactly the full success-path assignment.  Partial data is
never committed. -/
theorem dataSourceTicketRead_all_or_nothing (env : ReadEnv) :
    (∀ e, (dataSourceTicketRead env).result = ReadTermination.errMsg e →
        (dataSourceTicketRead env).setAttrs = []
      ∧ (dataSourceTicketRead env).setIdVal = none)
  ∧ ((dataSourceTicketRead env).result = ReadTermination.okNil →
        (dataSourceTicketRead env).setAttrs = ticketAttrs env.ticket
      ∧ (dataSourceTicketRead env).setIdVal = some env.ticket.id) := by
  rcases read_dichotomy env with ⟨h1, h2, h3⟩ | h
  · exact ⟨fun e _ => ⟨h1, h2⟩, fun hok => absurd hok h3⟩
  · refine ⟨fun e he => ?_, fun _ => ?_⟩
    · rw [h] at he
      exact ReadTermination.noConfusion he
    · rw [h]
      exact ⟨rfl, rfl⟩

/-- Witness for C2 at a concrete transport failure. -/
theorem dataSourceTicketRead_all_or_nothing_witness :
    (dataSourceTicketRead envTransportErr).setAttrs = []
  ∧ (dataSourceTicketRead envTransportErr).setIdVal = none :=
  (dataSourceTicketRead_all_or_nothing envTransportErr).1 "connection refused" rfl

/-- C3: each of the seven slice-based flatten functions maps an input of
length N to an output of length N whose i-th element is the flat mapping
of the i-th input element (the loop is `List.map` of the per-element
mapping): no filtering, sorting or deduplication. -/
theorem flatten_preserves_length_and_order :
    (∀ users : List User,
        flattenUsers users = users.map userFlat
      ∧ (flattenUsers users).length = users.length)
  ∧ (∀ comments : List Comment,
        flattenComments comments = comments.map commentFlat
      ∧ (flattenComments comments).length = comments.length)
  ∧ (∀ attachments : List Attachment,
        flattenAttachments attachments = attachments.map attachmentFlat
      ∧ (flattenAttachments attachments).length = attachments.length)
  ∧ (∀ billingItems : List BillingItem,
        flattenBillingItems billingItems = billingItems.map billingItemFlat
      ∧ (flattenBillingItems billingItems).length = billingItems.length)
  ∧ (∀ historyItems : List HistoryItem,
        flattenHistoryItems historyItems = historyItems.map historyItemFlat
      ∧ (flattenHistoryItems historyItems).length = historyItems.length)
  ∧ (∀ changes : List Change,
        flattenChanges changes = changes.map changeFlat
      ∧ (flattenChanges changes).length = changes.length)
  ∧ (∀ actions : List Action,
        flattenActions actions = actions.map actionFlat
      ∧ (flattenActions actions).length = actions.length) := by
  refine ⟨fun xs => ⟨flattenUsers_eq xs, ?_⟩,
          fun xs => ⟨flattenComments_eq xs, ?_⟩,
          fun xs => ⟨flattenAttachments_eq xs, ?_⟩,
          fun xs => ⟨flattenBillingItems_eq xs, ?_⟩,
          fun xs => ⟨flattenHistoryItems_eq xs, ?_⟩,
          fun xs => ⟨flattenChanges_eq xs, ?_⟩,
          fun xs => ⟨flattenActions_eq xs, ?_⟩⟩ <;>
    simp [flattenUsers_eq, flattenComments_eq, flattenAttachments_eq,
          flattenBillingItems_eq, flattenHistoryItems_eq, flattenChanges_eq,
          flattenActions_eq]

/-- C4: `flattenInvoicePeriods` produces one element per map entry,
re-including the entry key as the `invoiceperiod` field next to that
entry's `actualcost`, `startdate` and `enddate`; in particular the
singleton map of the spec example yields exactly that one element. -/
theorem flattenInvoicePeriods_reincludes_key :
    (∀ invoicePeriods : List (String × InvoicePeriod),
        flattenInvoicePeriods invoicePeriods = invoicePeriods.map invoicePeriodEntryFlat
      ∧ (flattenInvoicePeriods invoicePeriods).length = invoicePeriods.length)
  ∧ (∀ kv : String × InvoicePeriod,
        invoicePeriodEntryFlat kv =
          .map [("invoiceperiod", .str kv.1),
                ("actualcost", .num kv.2.actualcost),
                ("startdate", .str kv.2.startdate),
                ("enddate", .str kv.2.enddate)])
  ∧ flattenInvoicePeriods
        [("Jan-2024", ⟨"", (100.5 : ℚ), "2024-01-01", "2024-01-31"⟩)] =
      [Value.map [("invoiceperiod", .str "Jan-2024"),
                  ("actualcost", .num (100.5 : ℚ)),
                  ("startdate", .str "2024-01-01"),
                  ("enddate", .str "2024-01-31")]] := by
  refine ⟨fun ips => ⟨flattenInvoicePeriods_eq ips, ?_⟩, fun kv => rfl, rfl⟩
  simp [flattenInvoicePeriods_eq]

/-- C5: flattening an empty collection yields an empty collection for
every flatten function (the empty map for `flattenStringMap`), never an
absent or null field. -/
theorem flatten_empty_eq_empty :
    flattenUsers [] = []
  ∧ flattenComments [] = []
  ∧ flattenAttachments [] = []
  ∧ flattenBillingItems [] = []
  ∧ flattenInvoicePeriods [] = []
  ∧ flattenHistoryItems [] = []
  ∧ flattenChanges [] = []
  ∧ flattenActions [] = []
  ∧ flattenStringList [] = []
  ∧ flattenStringMap [] = [] :=
  ⟨rfl, rfl, rfl, rfl, rfl, rfl, rfl, rfl, rfl, rfl⟩

/-- C6 counterexample: a fully successful read of a ticket with a
non-zero `etag` leaves `etag` (a schema-declared attribute) unset, so
the claim that every schema attribute is assigned is false. -/
theorem dataSourceTicketRead_missing_schema_attrs :
    (dataSourceTicketRead envSuccess).result = ReadTermination.okNil
  ∧ "etag" ∈ TicketSchemaKeys
  ∧ envSuccess.ticket.etag = "W-123"
  ∧ "etag" ∉ ((dataSourceTicketRead envSuccess).setAttrs.map Prod.fst) := by
  refine ⟨rfl, by decide, rfl, by decide⟩

/-- C6 amended: on a successful read, `dataSourceTicketRead` assigns
exactly the sixteen attributes `id`, `ticketno`, `title`, `description`,
`status`, `substatus`, `statuschangedat`, `createdat`, `createdby`,
`changedby`, `participants`, `comments`, `attachments`, `billingitems`,
`historyitems`, `validactions` (in this order), and never assigns the
schema-declared attributes `claritycode`, `catalogitems`,
`editableproperties`, `mandatoryproperties`, `etag`, `type`,
`serviceprovider`, `cloudplatform`. -/
theorem dataSourceTicketRead_sets_exactly_sixteen (env : ReadEnv)
    (h : (dataSourceTicketRead env).result = ReadTermination.okNil) :
    (dataSourceTicketRead env).setAttrs.map Prod.fst =
      ["id", "ticketno", "title", "description", "status", "substatus",
       "statuschangedat", "createdat", "createdby", "changedby", "participants",
       "comments", "attachments", "billingitems", "historyitems", "validactions"]
  ∧ "claritycode" ∉ (dataSourceTicketRead env).setAttrs.map Prod.fst
  ∧ "catalogitems" ∉ (dataSourceTicketRead env).setAttrs.map Prod.fst
  ∧ "editableproperties" ∉ (dataSourceTicketRead env).setAttrs.map Prod.fst
  ∧ "mandatoryproperties" ∉ (dataSourceTicketRead env).setAttrs.map Prod.fst
  ∧ "etag" ∉ (dataSourceTicketRead env).setAttrs.map Prod.fst
  ∧ "type" ∉ (dataSourceTicketRead env).setAttrs.map Prod.fst
  ∧ "serviceprovider" ∉ (dataSourceTicketRead env).setAttrs.map Prod.fst
  ∧ "cloudplatform" ∉ (dataSourceTicketRead env).setAttrs.map Prod.fst := by
  rcases read_dichotomy env with ⟨h1, h2, h3⟩ | hr
  · exact absurd h h3
  · have hs : (dataSourceTicketRead env).setAttrs = ticketAttrs env.ticket := by rw [hr]
    rw [hs, ticketAttrs_keys]
    exact ⟨rfl, by decide, by decide, by decide, by decide, by decide, by decide,
           by decide, by decide⟩

/-- Witness for C6 amended at a concrete successful read. -/
theorem dataSourceTicketRead_sets_exactly_sixteen_witness :
    (dataSourceTicketRead envSuccess).setAttrs.map Prod.fst =
      ["id", "ticketno", "title", "description", "status", "substatus",
       "statuschangedat", "createdat", "createdby", "changedby", "participants",
       "comments", "attachments", "billingitems", "historyitems", "validactions"]
  ∧ "claritycode" ∉ (dataSourceTicketRead envSuccess).setAttrs.map Prod.fst
  ∧ "catalogitems" ∉ (dataSourceTicketRead envSuccess).setAttrs.map Prod.fst
  ∧ "editableproperties" ∉ (dataSourceTicketRead envSuccess).setAttrs.map Prod.fst
  ∧ "mandatoryproperties" ∉ (dataSourceTicketRead envSuccess).setAttrs.map Prod.fst
  ∧ "etag" ∉ (dataSourceTicketRead envSuccess).setAttrs.map Prod.fst
  ∧ "type" ∉ (dataSourceTicketRead envSuccess).setAttrs.map Prod.fst
  ∧ "serviceprovider" ∉ (dataSourceTicketRead envSuccess).setAttrs.map Prod.fst
  ∧ "cloudplatform" ∉ (dataSourceTicketRead envSuccess).setAttrs.map Prod.fst :=
  dataSourceTicketRead_sets_exactly_sixteen envSuccess rfl

/-- C7: when all steps before the status check succeed and the response
status is not 200, the read returns the error built from the status code
and status text, with no attribute and no id set. -/
theorem dataSourceTicketRead_non200_terminal (env : ReadEnv)
    (hlog : (env.isdebug && !env.loggerInitOk) = false)
    (hreq : env.reqErr = none) (htok : env.tokenErr = none)
    (htr : env.transportErr = none) (hst : env.statusCode ≠ 200) :
    (dataSourceTicketRead env).result =
      ReadTermination.errMsg
        ("API call failed with status " ++ toString env.statusCode ++ ": " ++ env.status)
  ∧ (dataSourceTicketRead env).setAttrs = []
  ∧ (dataSourceTicketRead env).setIdVal = none := by
  unfold dataSourceTicketRead
  rw [hlog, hreq, htok, htr]
  simp [hst]

/-- Witness for C7 at a concrete 404 response. -/
theorem dataSourceTicketRead_non200_terminal_witness :
    (dataSourceTicketRead env404).result =
      ReadTermination.errMsg "API call failed with status 404: 404 Not Found"
  ∧ (dataSourceTicketRead env404).setAttrs = []
  ∧ (dataSourceTicketRead env404).setIdVal = none :=
  dataSourceTicketRead_non200_terminal env404 rfl rfl rfl rfl (by decide)

/-- C8: every flatten function is a total pure function: on every input
it returns a result (no error branch), each returned element of the
slice-based flatteners is a flat map value, `flattenStringList` returns
only string values, and `flattenStringMap` returns a map with exactly
the input keys and string values. -/
theorem flatten_total_pure :
    (∀ users : List User, ∃ r, flattenUsers users = r ∧ r.all Value.isMapVal = true)
  ∧ (∀ comments : List Comment, ∃ r,
        flattenComments comments = r ∧ r.all Value.isMapVal = true)
  ∧ (∀ attachments : List Attachment, ∃ r,
        flattenAttachments attachments = r ∧ r.all Value.isMapVal = true)
  ∧ (∀ billingItems : List BillingItem, ∃ r,
        flattenBillingItems billingItems = r ∧ r.all Value.isMapVal = true)
  ∧ (∀ invoicePeriods : List (String × InvoicePeriod), ∃ r,
        flattenInvoicePeriods invoicePeriods = r ∧ r.all Value.isMapVal = true)
  ∧ (∀ historyItems : List HistoryItem, ∃ r,
        flattenHistoryItems historyItems = r ∧ r.all Value.isMapVal = true)
  ∧ (∀ changes : List Change, ∃ r,
        flattenChanges changes = r ∧ r.all Value.isMapVal = true)
  ∧ (∀ actions : List Action, ∃ r,
        flattenActions actions = r ∧ r.all Value.isMapVal = true)
  ∧ (∀ list : List String, ∃ r,
        flattenStringList list = r ∧ r.all Value.isStrVal = true)
  ∧ (∀ m : List (String × String), ∃ r,
        flattenStringMap m = r
      ∧ r.map Prod.fst = m.map Prod.fst
      ∧ r.all (fun kv => kv.2.isStrVal) = true) :=
  ⟨fun xs => ⟨xs.map userFlat, flattenUsers_eq xs,
      all_map_of_pointwise _ _ (fun _ => rfl) xs⟩,
   fun xs => ⟨xs.map commentFlat, flattenComments_eq xs,
      all_map_of_pointwise _ _ (fun _ => rfl) xs⟩,
   fun xs => ⟨xs.map attachmentFlat, flattenAttachments_eq xs,
      all_map_of_pointwise _ _ (fun _ => rfl) xs⟩,
   fun xs => ⟨xs.map billingItemFlat, flattenBillingItems_eq xs,
      all_map_of_pointwise _ _ (fun _ => rfl) xs⟩,
   fun xs => ⟨xs.map invoicePeriodEntryFlat, flattenInvoicePeriods_eq xs,
      all_map_of_pointwise _ _ (fun _ => rfl) xs⟩,
   fun xs => ⟨xs.map historyItemFlat, flattenHistoryItems_eq xs,
      all_map_of_pointwise _ _ (fun _ => rfl) xs⟩,
   fun xs => ⟨xs.map changeFlat, flattenChanges_eq xs,
      all_map_of_pointwise _ _ (fun _ => rfl) xs⟩,
   fun xs => ⟨xs.map actionFlat, flattenActions_eq xs,
      all_map_of_pointwise _ _ (fun _ => rfl) xs⟩,
   fun xs => ⟨xs.map Value.str, flattenStringList_eq xs,
      all_map_of_pointwise _ _ (fun _ => rfl) xs⟩,
   fun m => ⟨m.map (fun kv => (kv.1, Value.str kv.2)), flattenStringMap_eq m,
      map_fst_pairFlat m,
      all_map_of_pointwise _ _ (fun _ => rfl) m⟩⟩

/-- C9: with a nil `logInstance`, `logger.Debug`, `logger.Info`,
`logger.Error` and `logger.Close` all leave the logger state unchanged:
no write occurs and nothing fails. -/
theorem logger_nil_is_noop (message : String) :
    logger.Debug message none = none
  ∧ logger.Info message none = none
  ∧ logger.Error message none = none
  ∧ logger.Close none = none :=
  ⟨rfl, rfl, rfl, rfl⟩

/-- C10 counterexample: with `debug_info` enabled and the log-file open
failing, `providerConfigure` hits `log.Fatal` before the empty-key
check: on an empty `api_key` it returns neither an error nor a client,
so the claimed unconditional iff and "in every other case returns a
non-nil client" are false. -/
theorem providerConfigure_fatal_counterexample :
    envLoggerFatal.api_key = ""
  ∧ providerConfigure envLoggerFatal = ConfigResult.fatal "Error initializing logger:"
  ∧ (providerConfigure envLoggerFatal).isErrReturn = false
  ∧ (providerConfigure envLoggerFatal).isOkReturn = false :=
  ⟨rfl, rfl, rfl, rfl⟩

/-- C10 amended: when `debug_info` is set and logger initialisation
fails, `providerConfigure` terminates the process via `log.Fatal` and
returns nothing; in every run that survives logger initialisation it
returns an error exactly when `api_key` or `base_url` is empty, and
otherwise returns a non-nil client with a nil error — whatever the
outcome of Azure credential construction, which is only recorded as a
possibly-nil credential inside the client. -/
theorem providerConfigure_err_iff_unless_fatal (env : ConfigEnv) :
    ((env.debug_info && !env.loggerInitOk) = true →
        providerConfigure env = ConfigResult.fatal "Error initializing logger:")
  ∧ ((env.debug_info && !env.loggerInitOk) = false →
      (((∃ e, providerConfigure env = ConfigResult.err e)
          ↔ (env.api_key = "" ∨ env.base_url = ""))
        ∧ (env.api_key ≠ "" → env.base_url ≠ "" →
            providerConfigure env =
              ConfigResult.ok (NewCloudportalAPIClient
                (match env.credErr with
                 | some _ => none
                 | none => some ⟨env.tenantID, env.clientID, env.clientSecret⟩)
                env.api_key env.base_url env.tenantID env.debug_info)))) := by
  constructor
  · intro hlog
    simp [providerConfigure, hlog]
  · intro hlog
    by_cases h : env.api_key = "" ∨ env.base_url = ""
    · have hrun : providerConfigure env =
          ConfigResult.err "API key and base URL must be provided" := by
        simp [providerConfigure, hlog, h]
      refine ⟨⟨fun _ => h, fun _ => ⟨"API key and base URL must be provided", hrun⟩⟩,
              fun h1 h2 => ?_⟩
      rcases h with h | h
      · exact absurd h h1
      · exact absurd h h2
    · have hrun : providerConfigure env =
          ConfigResult.ok (NewCloudportalAPIClient
            (match env.credErr with
             | some _ => none
             | none => some ⟨env.tenantID, env.clientID, env.clientSecret⟩)
            env.api_key env.base_url env.tenantID env.debug_info) := by
        simp [providerConfigure, hlog, h]
      refine ⟨⟨fun he => ?_, fun hc => absurd hc h⟩, fun _ _ => hrun⟩
      rcases he with ⟨e, he⟩
      rw [hrun] at he
      exact ConfigResult.noConfusion he

/-- Witness for C10 amended: a configuration that survives logger
initialisation, with non-empty key and URL, whose Azure credential
construction fails, still yields a client (with a nil credential) and no
error. -/
theorem providerConfigure_err_iff_unless_fatal_witness :
    envC10.credErr = some "bad secret"
  ∧ providerConfigure envC10 =
      ConfigResult.ok (NewCloudportalAPIClient none "key" "https://example" "tid" false) :=
  ⟨rfl, ((providerConfigure_err_iff_unless_fatal envC10).2 rfl).2 (by decide) (by decide)⟩

end Cloudportal
